import Mathlib

/-
  Verification development for the lua-hardening-suite repository.

  The repository ships a single header, stdlibrary_wrapper.h, which redirects
  the identifiers fwrite and system to fwrite_sandbox and system_sandbox via
  object-like preprocessor macros placed before the inclusion of stdio.h, and
  declares the two replacement prototypes under an include guard.

  Two layers are embedded here:
  - a token-level model of the C preprocessor fragment the header uses
    (object-like macro substitution, include guards), faithful to the header
    text itself;
  - the policy-mediating sandbox layer (Policy Evaluator, mediated write and
    spawn primitives).  The implementations of fwrite_sandbox / system_sandbox
    are not part of the repository sources, only their declarations are, so
    those definitions are modelled from the specification text.
-/

namespace LuaHardening

/-- Modelled from the spec: an Operation Descriptor is an immutable record
capturing the operation kind (write or spawn-process) and its target.  For a
write it carries the requested byte length (size times count) and the
destination stream handle; for a spawn it carries the literal command text.
The implementation of the mediator is missing from the sources (only the
prototypes in stdlibrary_wrapper.h exist), so this follows section 3 of the
spec. -/
inductive OperationDescriptor where
  | write (bytes : Nat) (target : Nat)
  | spawn (command : String)
deriving DecidableEq

/-- Modelled from the spec: a Policy Decision is one of Allow or Deny(reason). -/
inductive PolicyDecision where
  | allow
  | deny (reason : String)
deriving DecidableEq

def PolicyDecision.isDeny : PolicyDecision → Bool
  | .allow => false
  | .deny _ => true

/-- Modelled from the spec: the Sandbox State configuration record
(max write size, allowed write targets, allowed command patterns), per
sections 3 and 6 of the spec. -/
structure SandboxConfig where
  maxWriteBytes : Nat
  allowedWriteTargets : List Nat
  allowedCommandPatterns : List String
deriving DecidableEq

/-- Modelled from the spec: the Policy Evaluator state machine has two states,
Uninitialized (no configuration loaded yet) and Ready (configuration loaded). -/
abbrev SandboxState := Option SandboxConfig

/-- A command pattern match over character lists: a star matches any remainder
of the command, otherwise characters must agree exactly.  This realizes the
spec example pattern set such as allowed_command_patterns containing a pattern
like an echo prefix followed by a star. -/
def charsMatch : List Char → List Char → Bool
  | ['*'], _ => true
  | [], [] => true
  | [], _ :: _ => false
  | _ :: _, [] => false
  | c :: ps, d :: ds => c == d && charsMatch ps ds

def patternMatches (pat cmd : String) : Bool :=
  charsMatch pat.data cmd.data

/-- Modelled from the spec: the Policy Evaluator.  While Uninitialized every
operation is denied (fail-closed).  When Ready, a write is allowed when its
byte length is within maxWriteBytes and its target stream is an allowed write
target; a spawn is allowed when the command matches one of the allowed command
patterns.  Evaluation is a pure function of (Operation Descriptor, Sandbox
State). -/
def evaluate (st : SandboxState) (op : OperationDescriptor) : PolicyDecision :=
  match st with
  | none => PolicyDecision.deny "policy not initialized"
  | some cfg =>
    match op with
    | OperationDescriptor.write bytes target =>
      if bytes ≤ cfg.maxWriteBytes && cfg.allowedWriteTargets.contains target then
        PolicyDecision.allow
      else
        PolicyDecision.deny "write denied by policy"
    | OperationDescriptor.spawn cmd =>
      if cfg.allowedCommandPatterns.any (fun p => patternMatches p cmd) then
        PolicyDecision.allow
      else
        PolicyDecision.deny "command not permitted by policy"

/-- Observable events of a mediated call: the policy decision being produced,
bytes reaching a host stream, and a host process being spawned.  Used to state
the ordering invariant (one decision before any side effect). -/
inductive Event where
  | decision (d : PolicyDecision)
  | hostWrite (bytes : Nat)
  | hostSpawn (command : String)
deriving DecidableEq

/-- Modelled from the spec: the host, as observed by the mediator.  streams
holds the byte contents of each host stream indexed by handle; procs records
every process ever spawned; diskFull is the oracle for an underlying write
primitive failure (for instance disk full); spawnStatus is the oracle giving
the exit status the real spawn primitive returns for a command. -/
structure Host where
  streams : List (List Nat)
  procs : List String
  diskFull : Bool
  spawnStatus : String → Int

/-- Modelled from the spec: the unmediated host write primitive.  On success
it appends size times count bytes of the buffer to the target stream and
returns the element count; when the underlying primitive fails (diskFull) it
writes nothing and returns 0. -/
def fwrite_real (buffer : List Nat) (size count handle : Nat) (host : Host) :
    Nat × Host × List Event :=
  if host.diskFull then (0, host, [])
  else
    (count,
     { host with streams :=
         host.streams.set handle ((host.streams.getD handle []) ++ buffer.take (size * count)) },
     [Event.hostWrite (size * count)])

/-- Modelled from the spec: the unmediated host spawn primitive.  It creates
the process and returns the real exit-status code. -/
def system_real (command : String) (host : Host) : Int × Host × List Event :=
  (host.spawnStatus command, { host with procs := host.procs ++ [command] },
   [Event.hostSpawn command])

/-- Modelled from the spec: the distinguished non-zero status a denied spawn
returns, understood by the guest only as command failed. -/
def sandboxDenyStatus : Int := 1

/-- Modelled from the spec: the mediated write primitive declared at line 9 of
stdlibrary_wrapper.h (its implementation is not in the sources).  Before any
write it builds a write Operation Descriptor with byte length size times count
and the destination handle, submits it to the Policy Evaluator, and on Allow
delegates to the real primitive returning its result unchanged; on Deny it
performs no write and returns 0 (a short-count failure return). -/
def fwrite_sandbox (buffer : List Nat) (size count handle : Nat) (st : SandboxState)
    (host : Host) : Nat × Host × List Event :=
  let d := evaluate st (OperationDescriptor.write (size * count) handle)
  match d with
  | PolicyDecision.allow =>
    let r := fwrite_real buffer size count handle host
    (r.1, r.2.1, Event.decision PolicyDecision.allow :: r.2.2)
  | PolicyDecision.deny reason =>
    (0, host, [Event.decision (PolicyDecision.deny reason)])

/-- Modelled from the spec: the mediated spawn primitive declared at line 11
of stdlibrary_wrapper.h (its implementation is not in the sources).  It builds
a spawn Operation Descriptor with the literal command text, submits it to the
Policy Evaluator, and on Allow delegates to the real primitive returning its
exit status unchanged; on Deny it spawns nothing and returns the distinguished
non-zero status. -/
def system_sandbox (command : String) (st : SandboxState) (host : Host) :
    Int × Host × List Event :=
  let d := evaluate st (OperationDescriptor.spawn command)
  match d with
  | PolicyDecision.allow =>
    let r := system_real command host
    (r.1, r.2.1, Event.decision PolicyDecision.allow :: r.2.2)
  | PolicyDecision.deny reason =>
    (sandboxDenyStatus, host, [Event.decision (PolicyDecision.deny reason)])

/-- Number of policy-decision events in a trace. -/
def decisionCount : List Event → Nat
  | [] => 0
  | Event.decision _ :: es => decisionCount es + 1
  | Event.hostWrite _ :: es => decisionCount es
  | Event.hostSpawn _ :: es => decisionCount es

/-- Number of host side-effect events (writes or spawns) in a trace. -/
def hostEventCount : List Event → Nat
  | [] => 0
  | Event.decision _ :: es => hostEventCount es
  | Event.hostWrite _ :: es => hostEventCount es + 1
  | Event.hostSpawn _ :: es => hostEventCount es + 1

/-- The first event of the trace is a policy decision. -/
def firstIsDecision : List Event → Bool
  | Event.decision _ :: _ => true
  | _ => false

/-- Byte count currently held by the stream with the given handle. -/
def streamBytes (host : Host) (handle : Nat) : Nat :=
  (host.streams.getD handle []).length

/-
  Token-level model of the C preprocessor fragment used by
  stdlibrary_wrapper.h: object-like macro definitions, identifier
  substitution, and include guards realized by a conditional block that is
  skipped once its guard name is defined.  #include is textual inclusion, so
  a translation unit is the flat item sequence after inclusion.
-/

/-- A preprocessing item inside a conditional block: an ordinary token or an
object-like macro definition.  A definition with no replacement models a flag
macro such as the include guard. -/
inductive SimpleItem where
  | tok (t : String)
  | define (name : String) (repl : Option String)
deriving DecidableEq

/-- A top-level preprocessing item: a simple item, or a guard block that is
processed only when its name is not yet defined. -/
inductive PPItem where
  | simple (s : SimpleItem)
  | ifndefBlock (name : String) (body : List SimpleItem)
deriving DecidableEq

/-- The set of macros currently defined, newest first. -/
abbrev PPEnv := List (String × Option String)

def isDefined (env : PPEnv) (n : String) : Bool :=
  (env.lookup n).isSome

/-- Single-step object-like macro substitution on one token: a token that is
a macro with a replacement expands to that replacement; any other token is
left unchanged. -/
def expandTok (env : PPEnv) (t : String) : String :=
  match env.lookup t with
  | some (some r) => r
  | _ => t

def ppSimple (env : PPEnv) : SimpleItem → PPEnv × List String
  | SimpleItem.tok t => (env, [expandTok env t])
  | SimpleItem.define n r => ((n, r) :: env, [])

def ppSimples (env : PPEnv) : List SimpleItem → PPEnv × List String
  | [] => (env, [])
  | i :: rest =>
    let s := ppSimple env i
    let acc := ppSimples s.1 rest
    (acc.1, s.2 ++ acc.2)

def ppItem (env : PPEnv) : PPItem → PPEnv × List String
  | PPItem.simple s => ppSimple env s
  | PPItem.ifndefBlock n body =>
    if isDefined env n then (env, []) else ppSimples env body

def ppItems (env : PPEnv) : List PPItem → PPEnv × List String
  | [] => (env, [])
  | i :: rest =>
    let s := ppItem env i
    let acc := ppItems s.1 rest
    (acc.1, s.2 ++ acc.2)

/-- The token stream of the two prototypes at lines 9 and 11 of
stdlibrary_wrapper.h. -/
def prototypeTokens : List String :=
  ["size_t", "fwrite_sandbox", "(", "const", "void", "*", "buffer", ",",
   "size_t", "size", ",", "size_t", "count", ",", "FILE", "*", "stream", ")", ";",
   "int", "system_sandbox", "(", "const", "char", "*", "command", ")", ";"]

/-- The body of stdlibrary_wrapper.h inside its include guard: the guard
definition (line 2), the two macro definitions (lines 4 and 5), then the
textually included stdio.h (line 7, with arbitrary token content), then the
two prototypes (lines 9 and 11). -/
def headerBody (stdioTokens : List String) : List SimpleItem :=
  [SimpleItem.define "FILESYSTEM_WRAPPER_H_" none,
   SimpleItem.define "fwrite" (some "fwrite_sandbox"),
   SimpleItem.define "system" (some "system_sandbox")]
  ++ stdioTokens.map SimpleItem.tok
  ++ prototypeTokens.map SimpleItem.tok

/-- stdlibrary_wrapper.h as a whole: its body wrapped in the
FILESYSTEM_WRAPPER_H_ include guard (lines 1, 2 and 13). -/
def headerItems (stdioTokens : List String) : List PPItem :=
  [PPItem.ifndefBlock "FILESYSTEM_WRAPPER_H_" (headerBody stdioTokens)]

/-- A translation unit of the guest runtime: the header included first,
followed by the guest runtime's own token stream, which is embedded verbatim
(its call sites are not edited). -/
def translationUnit (stdioTokens guestTokens : List String) : List PPItem :=
  headerItems stdioTokens ++ guestTokens.map (fun t => PPItem.simple (SimpleItem.tok t))

/-- The macro environment established by processing the header once from a
clean environment. -/
def envH : PPEnv :=
  [("system", some "system_sandbox"),
   ("fwrite", some "fwrite_sandbox"),
   ("FILESYSTEM_WRAPPER_H_", none)]

/-- The substitution the two macro definitions at lines 4 and 5 induce on any
single identifier token. -/
def redirect (t : String) : String :=
  if t = "fwrite" then "fwrite_sandbox"
  else if t = "system" then "system_sandbox"
  else t

/-- The header included n times in sequence within one translation unit. -/
def includeNTimes (n : Nat) (stdioTokens : List String) : List PPItem :=
  match n with
  | 0 => []
  | m + 1 => headerItems stdioTokens ++ includeNTimes m stdioTokens

/-
  C-type model for the call-compatibility claim about the prototypes.
-/

/-- C types occurring in the two prototypes and in the host primitives they
replace. -/
inductive CType where
  | void
  | char
  | cInt
  | size_t
  | file
  | constQ (t : CType)
  | ptr (t : CType)
deriving DecidableEq

/-- A C function signature: parameter types in order, and the return type. -/
structure CSignature where
  params : List CType
  ret : CType
deriving DecidableEq

/-- The host library prototype of fwrite, from stdio.h:
size_t fwrite(const void * restrict, size_t, size_t, FILE * restrict). -/
def fwriteHostSig : CSignature :=
  ⟨[CType.ptr (CType.constQ CType.void), CType.size_t, CType.size_t, CType.ptr CType.file],
   CType.size_t⟩

/-- The prototype declared at line 9 of stdlibrary_wrapper.h:
size_t fwrite_sandbox(const void *buffer, size_t size, size_t count, FILE *stream). -/
def fwriteSandboxSig : CSignature :=
  ⟨[CType.ptr (CType.constQ CType.void), CType.size_t, CType.size_t, CType.ptr CType.file],
   CType.size_t⟩

/-- The host library prototype of system, from stdlib.h:
int system(const char *). -/
def systemHostSig : CSignature :=
  ⟨[CType.ptr (CType.constQ CType.char)], CType.cInt⟩

/-- The prototype declared at line 11 of stdlibrary_wrapper.h:
int system_sandbox(const char *command). -/
def systemSandboxSig : CSignature :=
  ⟨[CType.ptr (CType.constQ CType.char)], CType.cInt⟩

/-
  Supporting lemmas about the preprocessor model.
-/

lemma ppSimples_append (env : PPEnv) (xs ys : List SimpleItem) :
    ppSimples env (xs ++ ys) =
      ((ppSimples (ppSimples env xs).1 ys).1,
       (ppSimples env xs).2 ++ (ppSimples (ppSimples env xs).1 ys).2) := by
  induction xs generalizing env with
  | nil => simp [ppSimples]
  | cons i rest ih => simp [ppSimples, ih]

lemma ppSimples_toks (env : PPEnv) (ts : List String) :
    ppSimples env (ts.map SimpleItem.tok) = (env, ts.map (expandTok env)) := by
  induction ts with
  | nil => simp [ppSimples]
  | cons t rest ih => simp [ppSimples, ppSimple, ih]

lemma expandTok_envH (t : String) : expandTok envH t = redirect t := by
  by_cases hf : t = "fwrite"
  · subst hf; rfl
  · by_cases hs : t = "system"
    · subst hs; rfl
    · by_cases hg : t = "FILESYSTEM_WRAPPER_H_"
      · subst hg; rfl
      · have h1 : (t == "system") = false := by simp [hs]
        have h2 : (t == "fwrite") = false := by simp [hf]
        have h3 : (t == "FILESYSTEM_WRAPPER_H_") = false := by simp [hg]
        simp [expandTok, envH, List.lookup, h1, h2, h3, redirect, hf, hs]

lemma redirect_ne_fwrite (t : String) : ¬ redirect t = "fwrite" := by
  by_cases hf : t = "fwrite"
  · subst hf; simp [redirect]
  · by_cases hs : t = "system"
    · subst hs; simp [redirect]
    · simp [redirect, hf, hs]

lemma redirect_ne_system (t : String) : ¬ redirect t = "system" := by
  by_cases hf : t = "fwrite"
  · subst hf; simp [redirect]
  · by_cases hs : t = "system"
    · subst hs; simp [redirect]
    · simp [redirect, hf, hs]

lemma ppSimples_headerBody (stdioTokens : List String) :
    ppSimples [] (headerBody stdioTokens) =
      (envH, (stdioTokens ++ prototypeTokens).map redirect) := by
  have h1 : headerBody stdioTokens =
      [SimpleItem.define "FILESYSTEM_WRAPPER_H_" none,
       SimpleItem.define "fwrite" (some "fwrite_sandbox"),
       SimpleItem.define "system" (some "system_sandbox")]
      ++ ((stdioTokens ++ prototypeTokens).map SimpleItem.tok) := by
    simp [headerBody, List.append_assoc]
  have h2 : ppSimples []
      [SimpleItem.define "FILESYSTEM_WRAPPER_H_" none,
       SimpleItem.define "fwrite" (some "fwrite_sandbox"),
       SimpleItem.define "system" (some "system_sandbox")] = (envH, []) := by
    simp [ppSimples, ppSimple, envH]
  have hfun : expandTok envH = redirect := funext expandTok_envH
  rw [h1, ppSimples_append, h2]
  simp only [List.nil_append, ppSimples_toks, hfun]

lemma ppItems_header (stdioTokens : List String) :
    ppItems [] (headerItems stdioTokens) =
      (envH, (stdioTokens ++ prototypeTokens).map redirect) := by
  simp [headerItems, ppItems, ppItem, isDefined, List.lookup, ppSimples_headerBody]

lemma ppItems_append (env : PPEnv) (xs ys : List PPItem) :
    ppItems env (xs ++ ys) =
      ((ppItems (ppItems env xs).1 ys).1,
       (ppItems env xs).2 ++ (ppItems (ppItems env xs).1 ys).2) := by
  induction xs generalizing env with
  | nil => simp [ppItems]
  | cons i rest ih => simp [ppItems, ih]

lemma isDefined_envH_guard : isDefined envH "FILESYSTEM_WRAPPER_H_" = true := by
  decide

lemma ppItems_header_skipped (stdioTokens : List String) :
    ppItems envH (headerItems stdioTokens) = (envH, []) := by
  simp [headerItems, ppItems, ppItem, isDefined_envH_guard]

lemma ppItems_includeNTimes_skipped (n : Nat) (stdioTokens : List String) :
    ppItems envH (includeNTimes n stdioTokens) = (envH, []) := by
  induction n with
  | zero => simp [includeNTimes, ppItems]
  | succ m ih =>
    rw [includeNTimes, ppItems_append, ppItems_header_skipped]
    simp [ih]

lemma not_contains_of_forall_ne (a : String) (ts : List String)
    (h : ∀ t ∈ ts, ¬ t = a) : ts.contains a = false := by
  induction ts with
  | nil => rfl
  | cons x rest ih =>
    have hx : ¬ (a == x) = true := by
      simp only [beq_iff_eq]
      intro he
      exact h x (List.mem_cons_self x rest) he.symm
    simp only [List.contains_cons, Bool.or_eq_false_iff]
    exact ⟨by simpa using hx, ih fun t ht => h t (List.mem_cons_of_mem x ht)⟩

lemma map_redirect_not_contains_fwrite (ts : List String) :
    (ts.map redirect).contains "fwrite" = false := by
  refine not_contains_of_forall_ne _ _ fun t ht => ?_
  obtain ⟨u, _, hu⟩ := List.mem_map.mp ht
  exact hu ▸ redirect_ne_fwrite u

lemma map_redirect_not_contains_system (ts : List String) :
    (ts.map redirect).contains "system" = false := by
  refine not_contains_of_forall_ne _ _ fun t ht => ?_
  obtain ⟨u, _, hu⟩ := List.mem_map.mp ht
  exact hu ▸ redirect_ne_system u

lemma ppItems_toks (env : PPEnv) (ts : List String) :
    ppItems env (ts.map fun t => PPItem.simple (SimpleItem.tok t)) =
      (env, ts.map (expandTok env)) := by
  induction ts with
  | nil => simp [ppItems]
  | cons t rest ih => simp [ppItems, ppItem, ppSimple, ih]

/-
  Claim theorems about the header (Binding/Redirection Layer).
-/

/-- Claim C3: in a translation unit that includes stdlibrary_wrapper.h first,
the two macro definitions make every call site spelled fwrite resolve to
fwrite_sandbox and every call site spelled system resolve to system_sandbox,
and every other token of the guest runtime is left exactly as written, so no
call site needs to be edited. -/
theorem redirection_layer_rewrites_call_sites (stdioTokens guestTokens : List String) :
    (ppItems [] (translationUnit stdioTokens guestTokens)).2 =
      ((stdioTokens ++ prototypeTokens) ++ guestTokens).map redirect ∧
    redirect "fwrite" = "fwrite_sandbox" ∧
    redirect "system" = "system_sandbox" ∧
    (∀ t : String, ¬ t = "fwrite" → ¬ t = "system" → redirect t = t) := by
  refine ⟨?_, rfl, rfl, ?_⟩
  · have hfun : expandTok envH = redirect := funext expandTok_envH
    rw [translationUnit, ppItems_append, ppItems_header]
    simp [ppItems_toks, hfun]
  · intro t hf hs
    simp [redirect, hf, hs]

theorem redirection_layer_rewrites_call_sites_witness :
    (ppItems [] (translationUnit ["size_t", "fwrite"]
        ["fwrite", "(", "buf", ")", ";", "system", "printf"])).2 =
      ((["size_t", "fwrite"] ++ prototypeTokens) ++
        ["fwrite", "(", "buf", ")", ";", "system", "printf"]).map redirect ∧
    redirect "printf" = "printf" :=
  ⟨(redirection_layer_rewrites_call_sites ["size_t", "fwrite"]
      ["fwrite", "(", "buf", ")", ";", "system", "printf"]).1,
   (redirection_layer_rewrites_call_sites ["size_t", "fwrite"]
      ["fwrite", "(", "buf", ")", ";", "system", "printf"]).2.2.2 "printf"
      (by decide) (by decide)⟩

/-- Claim C4: the replacement prototypes are call-compatible with the host
primitives they replace: fwrite_sandbox has exactly the parameter types and
return type of fwrite, and system_sandbox exactly those of system. -/
theorem replacement_signatures_call_compatible :
    fwriteSandboxSig = fwriteHostSig ∧ systemSandboxSig = systemHostSig :=
  ⟨rfl, rfl⟩

/-- Claim C9: because the macro definitions at lines 4 and 5 precede the
inclusion of stdio.h at line 7, processing the header from a clean environment
rewrites every subsequent occurrence of fwrite and system — the tokens of
stdio.h itself included — to fwrite_sandbox and system_sandbox, and the
resulting token stream never contains the identifiers fwrite or system, so no
call spelled with those names can resolve to the real primitives. -/
theorem identifiers_unreachable_after_inclusion (stdioTokens : List String) :
    (ppItems [] (headerItems stdioTokens)).2 =
      (stdioTokens ++ prototypeTokens).map redirect ∧
    (ppItems [] (headerItems stdioTokens)).2.contains "fwrite" = false ∧
    (ppItems [] (headerItems stdioTokens)).2.contains "system" = false := by
  refine ⟨(congrArg Prod.snd (ppItems_header stdioTokens)), ?_, ?_⟩
  · rw [ppItems_header]
    exact map_redirect_not_contains_fwrite _
  · rw [ppItems_header]
    exact map_redirect_not_contains_system _

/-- Claim C10: the include guard FILESYSTEM_WRAPPER_H_ makes inclusion
idempotent: including the header any positive number of times in one
translation unit produces exactly the macro environment and token output of
including it once, so the two macro definitions and the two prototypes are
introduced exactly once. -/
theorem include_guard_idempotent (n : Nat) (stdioTokens : List String) :
    ppItems [] (includeNTimes (n + 1) stdioTokens) =
      ppItems [] (includeNTimes 1 stdioTokens) ∧
    (ppItems [] (includeNTimes (n + 1) stdioTokens)).1 = envH := by
  have hN : ∀ m : Nat, ppItems [] (includeNTimes (m + 1) stdioTokens) =
      (envH, (stdioTokens ++ prototypeTokens).map redirect) := by
    intro m
    rw [includeNTimes, ppItems_append, ppItems_header]
    simp [ppItems_includeNTimes_skipped]
  rw [hN n, hN 0]
  exact ⟨rfl, rfl⟩

/-
  Supporting lemmas about the mediated primitives.
-/

lemma fwrite_sandbox_of_deny (buffer : List Nat) (size count handle : Nat)
    (st : SandboxState) (host : Host) (r : String)
    (hd : evaluate st (OperationDescriptor.write (size * count) handle) =
      PolicyDecision.deny r) :
    fwrite_sandbox buffer size count handle st host =
      (0, host, [Event.decision (PolicyDecision.deny r)]) := by
  simp [fwrite_sandbox, hd]

lemma fwrite_sandbox_of_allow (buffer : List Nat) (size count handle : Nat)
    (st : SandboxState) (host : Host)
    (hd : evaluate st (OperationDescriptor.write (size * count) handle) =
      PolicyDecision.allow) :
    fwrite_sandbox buffer size count handle st host =
      ((fwrite_real buffer size count handle host).1,
       (fwrite_real buffer size count handle host).2.1,
       Event.decision PolicyDecision.allow ::
         (fwrite_real buffer size count handle host).2.2) := by
  simp [fwrite_sandbox, hd]

lemma system_sandbox_of_deny (command : String) (st : SandboxState) (host : Host)
    (r : String)
    (hd : evaluate st (OperationDescriptor.spawn command) = PolicyDecision.deny r) :
    system_sandbox command st host =
      (sandboxDenyStatus, host, [Event.decision (PolicyDecision.deny r)]) := by
  simp [system_sandbox, hd]

lemma system_sandbox_of_allow (command : String) (st : SandboxState) (host : Host)
    (hd : evaluate st (OperationDescriptor.spawn command) = PolicyDecision.allow) :
    system_sandbox command st host =
      ((system_real command host).1,
       (system_real command host).2.1,
       Event.decision PolicyDecision.allow :: (system_real command host).2.2) := by
  simp [system_sandbox, hd]

lemma fwrite_real_no_decisions (buffer : List Nat) (size count handle : Nat)
    (host : Host) :
    decisionCount (fwrite_real buffer size count handle host).2.2 = 0 := by
  by_cases h : host.diskFull <;> simp [fwrite_real, h, decisionCount]

lemma system_real_no_decisions (command : String) (host : Host) :
    decisionCount (system_real command host).2.2 = 0 := by
  simp [system_real, decisionCount]

/-
  Example configurations and hosts used by the witnesses.
-/

/-- A Ready sandbox configuration that denies every operation. -/
def denyAllConfig : SandboxConfig :=
  { maxWriteBytes := 0, allowedWriteTargets := [], allowedCommandPatterns := [] }

/-- A Ready sandbox configuration from the end-to-end scenarios of the spec:
writes up to 100 bytes to stream 0, commands matching an echo pattern. -/
def allowConfig : SandboxConfig :=
  { maxWriteBytes := 100, allowedWriteTargets := [0], allowedCommandPatterns := ["echo *"] }

/-- A healthy host with one empty stream and no processes. -/
def hostExample : Host :=
  { streams := [[]], procs := [], diskFull := false, spawnStatus := fun _ => 0 }

/-- A host whose underlying write primitive fails (disk full) and whose real
spawn primitive reports exit status 7. -/
def hostFull : Host :=
  { streams := [[]], procs := [], diskFull := true, spawnStatus := fun _ => 7 }

/-
  Claim theorems about the mediated primitives and the Policy Evaluator.
-/

/-- Claim C2: while the Policy Evaluator is Uninitialized, every Operation
Descriptor is denied: evaluation returns the fail-closed Deny decision and in
particular never returns Allow; it is a total function of its inputs, so it
cannot crash. -/
theorem uninitialized_fail_closed (op : OperationDescriptor) :
    evaluate none op = PolicyDecision.deny "policy not initialized" ∧
    (evaluate none op).isDeny = true := by
  cases op <;> exact ⟨rfl, rfl⟩

/-- Claim C1: every mediated call produces exactly one Policy Decision, and it
is produced before any host side effect (it is the first event of the call
trace); when that decision is Deny, the mediated write returns 0 and leaves
the host untouched (zero bytes written) and the mediated spawn leaves the host
untouched (zero processes created), with no host events at all. -/
theorem mediation_one_decision_before_effects
    (buffer : List Nat) (size count handle : Nat) (command : String)
    (st : SandboxState) (host : Host) :
    decisionCount (fwrite_sandbox buffer size count handle st host).2.2 = 1 ∧
    firstIsDecision (fwrite_sandbox buffer size count handle st host).2.2 = true ∧
    decisionCount (system_sandbox command st host).2.2 = 1 ∧
    firstIsDecision (system_sandbox command st host).2.2 = true ∧
    ((evaluate st (OperationDescriptor.write (size * count) handle)).isDeny = true →
      (fwrite_sandbox buffer size count handle st host).1 = 0 ∧
      (fwrite_sandbox buffer size count handle st host).2.1 = host ∧
      hostEventCount (fwrite_sandbox buffer size count handle st host).2.2 = 0) ∧
    ((evaluate st (OperationDescriptor.spawn command)).isDeny = true →
      (system_sandbox command st host).2.1 = host ∧
      hostEventCount (system_sandbox command st host).2.2 = 0) := by
  refine ⟨?_, ?_, ?_, ?_, ?_, ?_⟩
  · cases hd : evaluate st (OperationDescriptor.write (size * count) handle) with
    | allow =>
      rw [fwrite_sandbox_of_allow buffer size count handle st host hd]
      simp [decisionCount, fwrite_real_no_decisions]
    | deny r =>
      rw [fwrite_sandbox_of_deny buffer size count handle st host r hd]
      simp [decisionCount]
  · cases hd : evaluate st (OperationDescriptor.write (size * count) handle) with
    | allow =>
      rw [fwrite_sandbox_of_allow buffer size count handle st host hd]
      simp [firstIsDecision]
    | deny r =>
      rw [fwrite_sandbox_of_deny buffer size count handle st host r hd]
      simp [firstIsDecision]
  · cases hd : evaluate st (OperationDescriptor.spawn command) with
    | allow =>
      rw [system_sandbox_of_allow command st host hd]
      simp [decisionCount, system_real_no_decisions]
    | deny r =>
      rw [system_sandbox_of_deny command st host r hd]
      simp [decisionCount]
  · cases hd : evaluate st (OperationDescriptor.spawn command) with
    | allow =>
      rw [system_sandbox_of_allow command st host hd]
      simp [firstIsDecision]
    | deny r =>
      rw [system_sandbox_of_deny command st host r hd]
      simp [firstIsDecision]
  · intro h
    cases hd : evaluate st (OperationDescriptor.write (size * count) handle) with
    | allow => rw [hd] at h; exact absurd h (by simp [PolicyDecision.isDeny])
    | deny r =>
      rw [fwrite_sandbox_of_deny buffer size count handle st host r hd]
      exact ⟨rfl, rfl, rfl⟩
  · intro h
    cases hd : evaluate st (OperationDescriptor.spawn command) with
    | allow => rw [hd] at h; exact absurd h (by simp [PolicyDecision.isDeny])
    | deny r =>
      rw [system_sandbox_of_deny command st host r hd]
      exact ⟨rfl, rfl⟩

theorem mediation_one_decision_before_effects_witness :
    (fwrite_sandbox [1, 2] 1 2 0 (some denyAllConfig) hostExample).1 = 0 ∧
    (fwrite_sandbox [1, 2] 1 2 0 (some denyAllConfig) hostExample).2.1 = hostExample ∧
    hostEventCount (fwrite_sandbox [1, 2] 1 2 0 (some denyAllConfig) hostExample).2.2 = 0 ∧
    (system_sandbox "rm -rf /" (some denyAllConfig) hostExample).2.1 = hostExample ∧
    hostEventCount (system_sandbox "rm -rf /" (some denyAllConfig) hostExample).2.2 = 0 :=
  have h := mediation_one_decision_before_effects [1, 2] 1 2 0 "rm -rf /"
    (some denyAllConfig) hostExample
  ⟨(h.2.2.2.2.1 (by decide)).1, (h.2.2.2.2.1 (by decide)).2.1,
   (h.2.2.2.2.1 (by decide)).2.2,
   (h.2.2.2.2.2 (by decide)).1, (h.2.2.2.2.2 (by decide)).2⟩

/-- Claim C5: for an allowed write the mediated primitive performs the real
write and returns the real primitive's success count: its result and its
effect on the host are exactly those of the unmediated primitive, and when the
underlying primitive succeeds the number of bytes appended to the destination
stream is exactly size times count. -/
theorem allow_write_refines_unmediated
    (buffer : List Nat) (size count handle : Nat) (st : SandboxState) (host : Host)
    (hA : evaluate st (OperationDescriptor.write (size * count) handle) =
      PolicyDecision.allow)
    (hOk : host.diskFull = false)
    (hBuf : size * count ≤ buffer.length)
    (hHandle : handle < host.streams.length) :
    (fwrite_sandbox buffer size count handle st host).1 =
      (fwrite_real buffer size count handle host).1 ∧
    (fwrite_sandbox buffer size count handle st host).2.1 =
      (fwrite_real buffer size count handle host).2.1 ∧
    (fwrite_sandbox buffer size count handle st host).1 = count ∧
    streamBytes (fwrite_sandbox buffer size count handle st host).2.1 handle =
      streamBytes host handle + size * count := by
  rw [fwrite_sandbox_of_allow buffer size count handle st host hA]
  refine ⟨rfl, rfl, ?_, ?_⟩
  · simp [fwrite_real, hOk]
  · simp only [fwrite_real, hOk, Bool.false_eq_true, if_false]
    simp [streamBytes, List.getD_eq_getElem?_getD, List.getElem?_set_self, hHandle,
      List.length_take, Nat.min_eq_left hBuf]

theorem allow_write_refines_unmediated_witness :
    (fwrite_sandbox [7, 7] 1 2 0 (some allowConfig) hostExample).1 = 2 ∧
    streamBytes (fwrite_sandbox [7, 7] 1 2 0 (some allowConfig) hostExample).2.1 0 =
      streamBytes hostExample 0 + 1 * 2 :=
  have h := allow_write_refines_unmediated [7, 7] 1 2 0 (some allowConfig) hostExample
    (by decide) rfl (by decide) (by decide)
  ⟨h.2.2.1, h.2.2.2⟩

/-- Claim C6: a denial is surfaced through the same failure channel the real
primitive uses, never as an exception or panic (the mediated primitives are
total functions returning through their ordinary return value): a denied write
returns the short-count failure value 0, a denied spawn returns the
distinguished non-zero status, that status carries no reason, and each denied
return value coincides with a value the real primitive can itself return on a
genuine failure, so the guest cannot distinguish a sandbox denial from a real
operation failure through the return channel. -/
theorem deny_surfaced_via_failure_channel
    (buffer : List Nat) (size count handle : Nat) (command : String)
    (st st2 : SandboxState) (host host2 : Host)
    (hW : (evaluate st (OperationDescriptor.write (size * count) handle)).isDeny = true)
    (hS : (evaluate st2 (OperationDescriptor.spawn command)).isDeny = true) :
    (fwrite_sandbox buffer size count handle st host).1 = 0 ∧
    (system_sandbox command st2 host2).1 = sandboxDenyStatus ∧
    ¬ sandboxDenyStatus = 0 ∧
    (fwrite_real buffer size count handle { host with diskFull := true }).1 =
      (fwrite_sandbox buffer size count handle st host).1 ∧
    (∃ h3 : Host, (system_real command h3).1 = (system_sandbox command st2 host2).1) := by
  have hw : (fwrite_sandbox buffer size count handle st host).1 = 0 := by
    cases hd : evaluate st (OperationDescriptor.write (size * count) handle) with
    | allow => rw [hd] at hW; exact absurd hW (by simp [PolicyDecision.isDeny])
    | deny r => rw [fwrite_sandbox_of_deny buffer size count handle st host r hd]
  have hs : (system_sandbox command st2 host2).1 = sandboxDenyStatus := by
    cases hd : evaluate st2 (OperationDescriptor.spawn command) with
    | allow => rw [hd] at hS; exact absurd hS (by simp [PolicyDecision.isDeny])
    | deny r => rw [system_sandbox_of_deny command st2 host2 r hd]
  refine ⟨hw, hs, by simp [sandboxDenyStatus], ?_, ?_⟩
  · rw [hw]; simp [fwrite_real]
  · exact ⟨{ host2 with spawnStatus := fun _ => sandboxDenyStatus }, by
      rw [hs]; simp [system_real]⟩

theorem deny_surfaced_via_failure_channel_witness :
    (fwrite_sandbox [1] 1 1 0 (some denyAllConfig) hostExample).1 = 0 ∧
    (system_sandbox "rm -rf /" (some denyAllConfig) hostExample).1 = sandboxDenyStatus :=
  have h := deny_surfaced_via_failure_channel [1] 1 1 0 "rm -rf /"
    (some denyAllConfig) (some denyAllConfig) hostExample hostExample
    (by decide) (by decide)
  ⟨h.1, h.2.1⟩

/-- Claim C7: policy evaluation is a pure, deterministic function of the pair
(Operation Descriptor, Sandbox State): it is a mathematical function whose
type mentions no host state and performs no effect, the decision a mediated
call produces is exactly the value of that function, and the decision is
identical across any two hosts, so repeated evaluation on identical inputs
always yields the same Policy Decision. -/
theorem evaluation_pure_deterministic (st : SandboxState)
    (buffer : List Nat) (size count handle : Nat) (command : String) (h1 h2 : Host) :
    (fwrite_sandbox buffer size count handle st h1).2.2.head? =
      some (Event.decision (evaluate st (OperationDescriptor.write (size * count) handle))) ∧
    (fwrite_sandbox buffer size count handle st h2).2.2.head? =
      (fwrite_sandbox buffer size count handle st h1).2.2.head? ∧
    (system_sandbox command st h1).2.2.head? =
      some (Event.decision (evaluate st (OperationDescriptor.spawn command))) ∧
    (system_sandbox command st h2).2.2.head? =
      (system_sandbox command st h1).2.2.head? := by
  have hw : ∀ h : Host, (fwrite_sandbox buffer size count handle st h).2.2.head? =
      some (Event.decision (evaluate st (OperationDescriptor.write (size * count) handle))) := by
    intro h
    cases hd : evaluate st (OperationDescriptor.write (size * count) handle) with
    | allow => rw [fwrite_sandbox_of_allow buffer size count handle st h hd]; rfl
    | deny r => rw [fwrite_sandbox_of_deny buffer size count handle st h r hd]; rfl
  have hs : ∀ h : Host, (system_sandbox command st h).2.2.head? =
      some (Event.decision (evaluate st (OperationDescriptor.spawn command))) := by
    intro h
    cases hd : evaluate st (OperationDescriptor.spawn command) with
    | allow => rw [system_sandbox_of_allow command st h hd]; rfl
    | deny r => rw [system_sandbox_of_deny command st h r hd]; rfl
  exact ⟨hw h1, (hw h2).trans (hw h1).symm, hs h1, (hs h2).trans (hs h1).symm⟩

/-- Claim C8: when an allowed operation's underlying host primitive fails, the
mediator passes the failure result through unchanged: an allowed write whose
real primitive fails (disk full) returns exactly the real primitive's result
(0, with the host untouched) rather than any sandbox-specific code, and an
allowed spawn returns the real spawn primitive's exit status unchanged. -/
theorem allow_passes_host_failure_unchanged
    (buffer : List Nat) (size count handle : Nat) (command : String)
    (st st2 : SandboxState) (host host2 : Host)
    (hW : evaluate st (OperationDescriptor.write (size * count) handle) =
      PolicyDecision.allow)
    (hS : evaluate st2 (OperationDescriptor.spawn command) = PolicyDecision.allow)
    (hFull : host.diskFull = true) :
    (fwrite_sandbox buffer size count handle st host).1 =
      (fwrite_real buffer size count handle host).1 ∧
    (fwrite_sandbox buffer size count handle st host).1 = 0 ∧
    (fwrite_sandbox buffer size count handle st host).2.1 = host ∧
    (system_sandbox command st2 host2).1 = (system_real command host2).1 ∧
    (system_sandbox command st2 host2).1 = host2.spawnStatus command := by
  rw [fwrite_sandbox_of_allow buffer size count handle st host hW,
    system_sandbox_of_allow command st2 host2 hS]
  refine ⟨rfl, ?_, ?_, rfl, rfl⟩
  · simp [fwrite_real, hFull]
  · simp [fwrite_real, hFull]

theorem allow_passes_host_failure_unchanged_witness :
    (fwrite_sandbox [9] 1 1 0 (some allowConfig) hostFull).1 = 0 ∧
    (system_sandbox "echo hi" (some allowConfig) hostFull).1 =
      hostFull.spawnStatus "echo hi" :=
  have h := allow_passes_host_failure_unchanged [9] 1 1 0 "echo hi"
    (some allowConfig) (some allowConfig) hostFull hostFull
    (by decide) (by decide) rfl
  ⟨h.2.1, h.2.2.2.2⟩

end LuaHardening
